import Mathlib

/-!
Shallow embedding of the sxm-discord playback core
(`sxm_discord/models.py`, `sxm_discord/music.py`, `sxm_discord/bot.py`).

Media references, channels, stream URLs and native audio-source handles are
abstracted to natural numbers; `asyncio` suspension and the few sources of
external nondeterminism (exceptions in awaited operations, interleavings at
await points) are made explicit as oracle parameters.  Pure state mutation is
explicit state passing over the structures below.
-/

namespace SxmDiscord

/-- Constants from `music.py`. -/
def MAX_RECENT_ITEMS : Nat := 10

def MAX_UPCOMING_ITEMS : Nat := 50

def PLAYER_QUEUE_MAXSIZE : Nat := 100

/-- `CarouselManager.CAROUSEL_TIMEOUT` from `models.py` (seconds). -/
def CAROUSEL_TIMEOUT : Nat := 300

/-- Sweep period of `CarouselManager._cleanup_loop` (`asyncio.sleep(60)`). -/
def SWEEP_INTERVAL : Nat := 60

/-- `UPDATE_INTERVAL` from `bot.py`. -/
def UPDATE_INTERVAL : Nat := 5

/-- `PlayType` enum from `models.py`. -/
inductive PlayType where
  | file
  | live
  | random
deriving DecidableEq, Repr

/-- `QueuedItem` dataclass from `models.py`.  `audio_file` is a media
reference, `stream_data` is a `(channel, stream url)` pair, `source` is the
optional native FFmpeg audio-source handle assigned once materialized. -/
structure QueuedItem where
  audio_file : Option Nat := none
  stream_data : Option (Nat × Nat) := none
  source : Option Nat := none
deriving DecidableEq, Repr

/-- `QueuedItem.cleanup`: if a native source handle is held, it is released
(`source.cleanup()`, with `ProcessLookupError`/`OSError` swallowed) and the
reference is unconditionally cleared in a `finally` block.  Returns the
updated item together with the list of native handles released by this call. -/
def QueuedItem.cleanup (i : QueuedItem) : QueuedItem × List Nat :=
  match i.source with
  | some h => ({ i with source := none }, [h])
  | none => (i, [])

/-- `ArchivedQueuedItem(audio_file=f)` constructor from `music.py._add`. -/
def archivedQueuedItem (f : Nat) : QueuedItem :=
  { audio_file := some f }

/-- `SXMQueuedItem(stream_data=(channel, url))` constructor from
`music.py._add`. -/
def sxmQueuedItem (ch url : Nat) : QueuedItem :=
  { stream_data := some (ch, url) }

/-- Messages placed on the outbound event queue by `AudioPlayer`
(`EventTypes.TRIGGER_HLS_STREAM` and `EventTypes.KILL_HLS_STREAM`). -/
inductive OutEvent where
  | triggerHls (channelId : Nat) (protocol : String)
  | killHls
deriving DecidableEq, Repr

/-- Python `deque(maxlen=cap)` right-append: when full, the oldest (leftmost)
entry is dropped. -/
def dequeAppend (cap : Nat) (l : List Nat) (a : Nat) : List Nat :=
  if l.length < cap then l ++ [a] else l.tail ++ [a]

/-- Python `deque(maxlen=cap)` left-append (`appendleft`): when full, the
rightmost entry is dropped. -/
def dequeAppendLeft (cap : Nat) (l : List Nat) (a : Nat) : List Nat :=
  (a :: l).take cap

end SxmDiscord

namespace SxmDiscord

/-- `ReactionCarousel` from `models.py`, restricted to the fields that
`handle_reaction`/`touch`/`is_expired` read and write.  Display items are
abstracted to naturals; times are `time.monotonic()` readings in whole
time-units. -/
structure ReactionCarousel where
  items : List Nat
  index : Nat := 0
  created_at : Nat := 0
  last_interaction : Nat := 0
deriving DecidableEq, Repr

/-- `ReactionCarousel.touch`: update the last-interaction time to `now`. -/
def ReactionCarousel.touch (c : ReactionCarousel) (now : Nat) : ReactionCarousel :=
  { c with last_interaction := now }

/-- `ReactionCarousel.is_expired`: `(time.monotonic() - last_interaction) >
timeout`. -/
def ReactionCarousel.is_expired (c : ReactionCarousel) (timeout now : Nat) : Bool :=
  now - c.last_interaction > timeout

/-- `ReactionCarousel.handle_reaction` from `models.py`: `touch()` runs first,
unconditionally; then the index moves left/right clamped to
`0 ≤ index < items.length`; at an edge (or for an unknown emoji) the reaction
is reported unhandled (`False`).  The `update(state)` display refresh has no
effect on the carousel fields modelled here. -/
def ReactionCarousel.handle_reaction (c : ReactionCarousel) (emoji : String)
    (now : Nat) : Bool × ReactionCarousel :=
  let c := c.touch now
  if emoji = "⬅️" ∧ c.index > 0 then
    (true, { c with index := c.index - 1 })
  else if emoji = "➡️" ∧ c.index < c.items.length - 1 then
    (true, { c with index := c.index + 1 })
  else
    (false, c)

/-- `CarouselManager` from `models.py`: the registry is a finite map from
message id to carousel, modelled as an association list with unique keys. -/
structure CarouselManager where
  carousels : List (Nat × ReactionCarousel) := []
deriving DecidableEq, Repr

/-- `CarouselManager.add`: overwrite-or-insert. -/
def CarouselManager.add (m : CarouselManager) (messageId : Nat)
    (c : ReactionCarousel) : CarouselManager :=
  { carousels :=
      (messageId, c) :: m.carousels.filter (fun p => p.1 ≠ messageId) }

/-- `CarouselManager.get`: dictionary lookup followed by the lazy-expiry
check — an expired carousel is deleted and `None` is returned. -/
def CarouselManager.get (m : CarouselManager) (messageId now : Nat) :
    Option ReactionCarousel × CarouselManager :=
  match m.carousels.find? (fun p => p.1 = messageId) with
  | none => (none, m)
  | some p =>
    if p.2.is_expired CAROUSEL_TIMEOUT now then
      (none, { carousels := m.carousels.filter (fun q => q.1 ≠ messageId) })
    else
      (some p.2, m)

/-- `CarouselManager.remove`: `dict.pop(id, None)`. -/
def CarouselManager.remove (m : CarouselManager) (messageId : Nat) :
    CarouselManager :=
  { carousels := m.carousels.filter (fun p => p.1 ≠ messageId) }

/-- `CarouselManager._cleanup_expired`, run by the sweep loop every
`SWEEP_INTERVAL` time-units: delete every carousel whose `is_expired` check
holds at `now`. -/
def CarouselManager.cleanup_expired (m : CarouselManager) (now : Nat) :
    CarouselManager :=
  { carousels :=
      m.carousels.filter (fun p => ¬ p.2.is_expired CAROUSEL_TIMEOUT now) }

end SxmDiscord

namespace SxmDiscord

/-- The `AudioPlayer` state from `music.py`, together with ghost trace fields
that record externally observable effects: `releases` collects every native
audio-source handle released by a `QueuedItem.cleanup` call, `cleaned`
collects every item a `cleanup()` call was made on, `events` is the outbound
event queue (`self._event_queue.safe_put`), `closedSessions` records database
sessions closed by `stop`, and `disconnectCalls` counts `voice.disconnect`
invocations.  `voice` is whether a voice client is bound;  `voicePlaying`
models `voice.is_playing()`. -/
structure AudioPlayer where
  playType : Option PlayType := none
  repeat_ : Bool := false
  queue : List QueuedItem := []
  recent : List Nat := []
  upcoming : List Nat := []
  current : Option QueuedItem := none
  playlistData : Option (List Nat × Nat) := none
  voice : Bool := false
  voicePlaying : Bool := false
  events : List OutEvent := []
  releases : List Nat := []
  cleaned : List QueuedItem := []
  closedSessions : List Nat := []
  disconnectCalls : Nat := 0
deriving DecidableEq, Repr

/-- Effect of `item.cleanup()` on the player's ghost trace: the handles the
call released are appended to `releases`, and the item is recorded in
`cleaned`. -/
def AudioPlayer.releaseItem (s : AudioPlayer) (i : QueuedItem) : AudioPlayer :=
  { s with
    releases := s.releases ++ (QueuedItem.cleanup i).2
    cleaned := s.cleaned ++ [i] }

/-- `AudioPlayer.is_playing`: false when no voice client or no current item,
otherwise `voice.is_playing()`. -/
def AudioPlayer.is_playing (s : AudioPlayer) : Bool :=
  s.voice ∧ s.current.isSome ∧ s.voicePlaying

/-- `asyncio.wait_for(self._player_queue.put(item), timeout=QUEUE_TIMEOUT)`
in `music.py._add`: in the cooperative model the put times out exactly when
the bounded queue (maxsize 100) is still full at the deadline; the rejected
item is then released (`item.cleanup()`), not silently dropped. -/
def AudioPlayer.enqueueItem (s : AudioPlayer) (i : QueuedItem) : AudioPlayer :=
  if s.queue.length < PLAYER_QUEUE_MAXSIZE then
    { s with queue := s.queue ++ [i] }
  else
    s.releaseItem i

/-- `AudioPlayer._add`: discards the request when no voice client is set;
for a file, appends the media to `upcoming` (deque maxlen 50) and enqueues an
`ArchivedQueuedItem`; for stream data without a URL, signals
`TRIGGER_HLS_STREAM` on the outbound queue and enqueues nothing; for stream
data with a URL, enqueues an `SXMQueuedItem`. -/
def AudioPlayer.add_aux (s : AudioPlayer) (file_info : Option Nat)
    (stream_data : Option (Nat × Option Nat)) : AudioPlayer :=
  if s.voice = false then
    s
  else
    match stream_data, file_info with
    | none, some f =>
      let s := { s with upcoming := dequeAppend MAX_UPCOMING_ITEMS s.upcoming f }
      s.enqueueItem (archivedQueuedItem f)
    | some (ch, none), _ =>
      { s with events := s.events ++ [OutEvent.triggerHls ch "udp"] }
    | some (ch, some url), _ =>
      s.enqueueItem (sxmQueuedItem ch url)
    | none, none => s

/-- `AudioPlayer.add_file`: rejected with `False` when an HLS stream is
playing; otherwise sets `play_type` to `FILE` if unset and delegates to
`_add`. -/
def AudioPlayer.add_file (s : AudioPlayer) (file_info : Nat) :
    Bool × AudioPlayer :=
  if s.playType = some PlayType.live then
    (false, s)
  else
    let s :=
      if s.playType = none then { s with playType := some PlayType.file } else s
    (true, s.add_aux (some file_info) none)

/-- `AudioPlayer.add_live_stream`: rejected with `False` when any play type
is already set; otherwise sets `play_type := LIVE` and delegates to `_add`
with the `(channel, optional url)` stream data. -/
def AudioPlayer.add_live_stream (s : AudioPlayer) (channel : Nat)
    (stream_url : Option Nat) : Bool × AudioPlayer :=
  if s.playType ≠ none then
    (false, s)
  else
    let s := { s with playType := some PlayType.live }
    (true, s.add_aux none (some (channel, stream_url)))

/-- `AudioPlayer._add_random_playlist_song`: fails when no playlist data is
held or the distinct-song query over the playlist channels is empty; the
`SystemRandom.choice` sample composed with the resolving `.first()` query is
abstracted as the oracle `choice` (returning `none` when the sampled pair
resolves to no record); a resolved song is added via `add_file`. -/
def AudioPlayer.add_random_playlist_song (choice : List Nat → Option Nat)
    (s : AudioPlayer) : Bool × AudioPlayer :=
  match s.playlistData with
  | none => (false, s)
  | some pd =>
    if pd.1 = [] then
      (false, s)
    else
      match choice pd.1 with
      | none => (false, s)
      | some song => s.add_file song

/-- The `for _ in range(5)` pre-fill loop of `add_playlist`: stops early when
`_add_random_playlist_song` reports failure. -/
def AudioPlayer.prefill (choice : List Nat → Option Nat) :
    Nat → AudioPlayer → AudioPlayer
  | 0, s => s
  | n + 1, s =>
    let r := AudioPlayer.add_random_playlist_song choice s
    if r.1 then AudioPlayer.prefill choice n r.2 else r.2

/-- `AudioPlayer.add_playlist`: rejected with `False` when any play type is
already set; otherwise stores the `(channel songs, database session)` pair,
pre-fills up to 5 random songs and sets `play_type := RANDOM`. -/
def AudioPlayer.add_playlist (choice : List Nat → Option Nat)
    (s : AudioPlayer) (repo : List Nat) (sessionId : Nat) :
    Bool × AudioPlayer :=
  if s.playType ≠ none then
    (false, s)
  else
    let s := { s with playlistData := some (repo, sessionId) }
    let s := AudioPlayer.prefill choice 5 s
    (true, { s with playType := some PlayType.random })

/-- Outcome of `await asyncio.wait_for(self._voice.disconnect(force=True),
timeout=CLEANUP_TIMEOUT)` inside `stop`. -/
inductive DisconnectOutcome where
  | ok
  | timeout
  | error
deriving DecidableEq, Repr

/-- `AudioPlayer.stop(disconnect, kill_hls)` from `music.py`: drain and
release every queued item, release and clear the current item, clear the
`recent`/`upcoming` deques, close any held playlist database session, then
under the voice lock stop playback and — only when `disconnect` is set —
disconnect the voice client (`KILL_HLS_STREAM` is signalled after a
successful disconnect while `play_type` is `LIVE` and `kill_hls` is set; a
timeout or error drops the voice reference); finally reset `play_type`.
`stopRaises` models an exception from `voice.is_playing()/voice.stop()`
(caught by the `except Exception` handler, which drops the voice
reference), `disc` the outcome of the disconnect await. -/
def AudioPlayer.stop (s : AudioPlayer) (disconnect kill_hls : Bool)
    (disc : DisconnectOutcome) (stopRaises : Bool) : AudioPlayer :=
  let s := s.queue.foldl AudioPlayer.releaseItem { s with queue := [] }
  let s :=
    match s.current with
    | some c => { s.releaseItem c with current := none }
    | none => s
  let s := { s with recent := [], upcoming := [] }
  let s :=
    match s.playlistData with
    | some pd =>
      { s with playlistData := none, closedSessions := s.closedSessions ++ [pd.2] }
    | none => s
  let s :=
    if s.voice then
      if stopRaises then
        { s with voice := false, voicePlaying := false }
      else
        let s := { s with voicePlaying := false }
        if disconnect then
          match disc with
          | DisconnectOutcome.ok =>
            let s := { s with
              voice := false, disconnectCalls := s.disconnectCalls + 1 }
            if s.playType = some PlayType.live ∧ kill_hls then
              { s with events := s.events ++ [OutEvent.killHls] }
            else
              s
          | DisconnectOutcome.timeout =>
            { s with voice := false, disconnectCalls := s.disconnectCalls + 1 }
          | DisconnectOutcome.error =>
            { s with voice := false, disconnectCalls := s.disconnectCalls + 1 }
        else
          s
    else
      s
  { s with playType := none }

end SxmDiscord

namespace SxmDiscord

/-- `AudioPlayer._discard` (also the shape of the iteration's `finally`
block): release the current item if one is set, then clear the current
slot. -/
def AudioPlayer.discard (s : AudioPlayer) : AudioPlayer :=
  match s.current with
  | some c => { s.releaseItem c with current := none }
  | none => { s with current := none }

/-- `AudioPlayer._handle_track_end`: nothing under shutdown; with a `RANDOM`
playlist and queue depth below 5, one refill attempt; otherwise with repeat
enabled on `FILE` playback, re-add the just-finished file. -/
def AudioPlayer.handle_track_end (choice : List Nat → Option Nat)
    (s : AudioPlayer) (shutdownSet : Bool) : AudioPlayer :=
  if shutdownSet then
    s
  else if s.playType = some PlayType.random ∧ s.queue.length < 5 then
    (AudioPlayer.add_random_playlist_song choice s).2
  else if s.repeat_ ∧ s.playType = some PlayType.file then
    match s.current with
    | some c =>
      match c.audio_file with
      | some f => s.add_aux (some f) none
      | none => s
    | none => s
  else
    s

/-- `AudioPlayer._create_live_source` / `_create_file_source`: validation of
the dequeued item against the current play type; on success the fresh native
handle `h` is assigned to the item (`self._current.source = source`), and for
file playback the item is rotated from `upcoming` into `recent` first.
Returns `none` exactly when the source constructor returns `None` in the
code (invalid item shape). -/
def AudioPlayer.createSource (s : AudioPlayer) (item : QueuedItem) (h : Nat) :
    Option (AudioPlayer × QueuedItem) :=
  if s.playType = some PlayType.live then
    if item.audio_file ≠ none then none
    else
      match item.stream_data with
      | none => none
      | some _ => some (s, { item with source := some h })
  else
    if item.stream_data ≠ none then none
    else
      match item.audio_file with
      | none => none
      | some f =>
        let s := { s with
          upcoming :=
            if s.upcoming.head? = some f then s.upcoming.tail else s.upcoming
          recent := dequeAppendLeft MAX_RECENT_ITEMS s.recent f }
        some (s, { item with source := some h })

/-- How the suspension `await self._player_event.wait()` of the iteration
ends, together with whether an external `stop(...)` call ran at the
suspension point (releasing the current item and resetting the player from a
different coroutine, as `stop()`/`cleanup()` do while the loop is parked):
`raisedEarly` is an exception at/after `voice.play` before the wait
completed, `completed` is the normal completion signal, `cancelled` is a
task cancellation delivered at the wait (the `finally` still runs). -/
inductive WaitOutcome where
  | raisedEarly
  | completed (stopDuring : Option (Bool × Bool × DisconnectOutcome × Bool))
  | cancelled (stopDuring : Option (Bool × Bool × DisconnectOutcome × Bool))
deriving DecidableEq, Repr

/-- Apply an intervening external `stop` (with its argument/outcome tuple)
at the suspension point, if one ran. -/
def AudioPlayer.applyStopDuring (s : AudioPlayer)
    (sd : Option (Bool × Bool × DisconnectOutcome × Bool)) : AudioPlayer :=
  match sd with
  | none => s
  | some (d, k, disc, sr) => s.stop d k disc sr

/-- `AudioPlayer._audio_player_iteration` from `music.py`: wait on the queue
(a timeout — queue empty — just returns); validate shutdown flag, voice
client and play type (releasing the dequeued item on each invalid path);
materialize the native source, assigning handle `h`; start playback; suspend
until the completion signal; run the post-track policy; and release the
current item in the `finally` block however the suspension ended.  On the
shutdown path the code releases the current item but leaves the slot set. -/
def AudioPlayer.iteration (choice : List Nat → Option Nat) (s : AudioPlayer)
    (shutdownSet : Bool) (h : Nat) (w : WaitOutcome) : AudioPlayer :=
  match s.queue with
  | [] => s
  | item :: rest =>
    let s := { s with queue := rest, current := some item }
    if shutdownSet then
      { s.releaseItem item with current := some (QueuedItem.cleanup item).1 }
    else if ¬ s.voice then
      s.discard
    else if s.playType = none then
      s.discard
    else
      match s.createSource item h with
      | none => s.discard
      | some (s, item) =>
        let s := { s with current := some item, voicePlaying := true }
        match w with
        | WaitOutcome.raisedEarly => s.discard
        | WaitOutcome.completed sd =>
          let s := s.applyStopDuring sd
          let s := AudioPlayer.handle_track_end choice s shutdownSet
          s.discard
        | WaitOutcome.cancelled sd =>
          let s := s.applyStopDuring sd
          s.discard

/-- All native handles reachable from a player state (queued items and the
current slot). -/
def AudioPlayer.handles (s : AudioPlayer) : List Nat :=
  s.queue.filterMap QueuedItem.source ++
    (match s.current with
     | some c => c.source.toList
     | none => [])

end SxmDiscord

namespace SxmDiscord

/-- Outcome of one `_audio_player_iteration` call as seen by
`_audio_player_loop`: normal return, an `Exception` (caught and logged), or
an `asyncio.CancelledError` (breaks the loop). -/
inductive IterOutcome where
  | ok
  | error
  | cancelled
deriving DecidableEq, Repr

/-- Observable scheduling events of `_audio_player_loop`. -/
inductive LoopEvent where
  | iteration
  | backoff (secs : Nat)
deriving DecidableEq, Repr

/-- How `_audio_player_loop` terminated. -/
inductive LoopExit where
  | shutdown
  | cancelled
deriving DecidableEq, Repr

/-- `AudioPlayer._audio_player_loop`: the schedule lists, per loop pass, the
shutdown-flag value observed by the `while` condition and the outcome of the
iteration.  An observed shutdown flag exits the loop; a cancellation breaks
it; an error is logged and followed by a fixed `asyncio.sleep(1)` backoff
before continuing.  `none` as the exit means the loop was still running when
the schedule ran out. -/
def audio_player_loop : List (Bool × IterOutcome) →
    List LoopEvent × Option LoopExit
  | [] => ([], none)
  | (shutdownSet, out) :: rest =>
    if shutdownSet then
      ([], some LoopExit.shutdown)
    else
      match out with
      | IterOutcome.cancelled => ([LoopEvent.iteration], some LoopExit.cancelled)
      | IterOutcome.error =>
        let r := audio_player_loop rest
        (LoopEvent.iteration :: LoopEvent.backoff 1 :: r.1, r.2)
      | IterOutcome.ok =>
        let r := audio_player_loop rest
        (LoopEvent.iteration :: r.1, r.2)

/-- Effects of `AudioPlayer.cleanup` on the player task (`music.py` lines
174-194): the shutdown flag is set and the player event is set to wake the
parked loop; if the task is still running past the bounded
`CLEANUP_TIMEOUT` wait, it is force-cancelled and the resulting
`CancelledError` is awaited and swallowed. -/
structure CleanupEffect where
  shutdownSet : Bool
  wakeSignalled : Bool
  forceCancelled : Bool
  cancelErrorSwallowed : Bool
deriving DecidableEq, Repr

/-- `AudioPlayer.cleanup`, as it acts on the loop task: `taskRunning` is
whether a live player task exists, `exitsWithinTimeout` whether it observes
the flag and exits before `CLEANUP_TIMEOUT`. -/
def cleanupModel (taskRunning exitsWithinTimeout : Bool) : CleanupEffect :=
  { shutdownSet := true
    wakeSignalled := true
    forceCancelled := taskRunning ∧ ¬ exitsWithinTimeout
    cancelErrorSwallowed := taskRunning ∧ ¬ exitsWithinTimeout }

end SxmDiscord

namespace SxmDiscord

/-- Inbound status events consumed by `DiscordWorker._handle_event`
(`bot.py`). -/
inductive InEvent where
  | sxmStatus (running : Bool)
  | hlsStreamStarted (channelId url : Nat)
  | updateChannels (channels : List Nat)
  | updateLive
deriving DecidableEq, Repr

/-- Externally observable actions of `DiscordWorker._process_events` /
`_reset_live`. -/
inductive BotAction where
  | outputSxmRunning
  | outputResuming
  | outputConnectionLost
  | stopPlayer (disconnect kill_hls : Bool)
  | cleanupPlayer
  | createPlayer
  | startPlayer
  | settleDelay (secs : Nat)
  | setVoice (voiceChannel : Nat)
  | requestChannel (xmChannel : Nat)
  | updateActivity
deriving DecidableEq, Repr

/-- `DiscordWorker` state from `bot.py` restricted to what
`_process_events`, `_handle_event` and `_reset_live` touch.  `pending` is
the `(xm channel, voice channel)` pending-resume descriptor. -/
structure DiscordWorker where
  sxmRunning : Bool := false
  channels : List Nat := []
  pending : Option (Nat × Nat) := none
  player : Option AudioPlayer := none
  now : Nat := 0
  lastUpdate : Nat := 0
deriving DecidableEq, Repr

/-- `DiscordWorker._handle_event`: connectivity updates set the flag; a
`HLS_STREAM_STARTED` event resolves the channel in the catalog and, when a
player exists, calls `add_live_stream(channel, url)` on it; catalog and
live-metadata updates replace the respective snapshots. -/
def DiscordWorker.handle_event (b : DiscordWorker) (e : InEvent) :
    DiscordWorker :=
  match e with
  | InEvent.sxmStatus v => { b with sxmRunning := v }
  | InEvent.hlsStreamStarted ch url =>
    if b.channels.contains ch then
      match b.player with
      | some p =>
        { b with player := some (p.add_live_stream ch (some url)).2 }
      | none => b
    else
      b
  | InEvent.updateChannels chs => { b with channels := chs }
  | InEvent.updateLive => b

/-- `DiscordWorker._reset_live(voice_channel, xm_channel)`: stop the player
with `kill_hls=False` (and `disconnect` left at its default `True`), run
`cleanup()`, create and start a fresh `AudioPlayer`, sleep a fixed 5-second
settle delay, rebind the voice channel and re-request the live channel.
`connectOk` is whether `set_voice` succeeds (on a connect timeout the raised
`VoiceConnectionError` propagates and the re-request never runs); `disc` and
`sr` are the stop oracles.  Returns the new state, the action trace, and
whether the sequence ran to completion. -/
def DiscordWorker.reset_live (b : DiscordWorker) (voiceChannel xmChannel : Nat)
    (connectOk : Bool) (disc : DisconnectOutcome) (sr : Bool) :
    DiscordWorker × List BotAction × Bool :=
  match b.player with
  | none => (b, [], true)
  | some p =>
    let _ := p.stop true false disc sr
    let acts := [BotAction.stopPlayer true false, BotAction.cleanupPlayer,
      BotAction.createPlayer, BotAction.startPlayer, BotAction.settleDelay 5]
    if connectOk then
      let fresh : AudioPlayer := { voice := true }
      let r := fresh.add_live_stream xmChannel none
      ({ b with player := some r.2 },
        acts ++ [BotAction.setVoice voiceChannel,
          BotAction.requestChannel xmChannel], true)
    else
      ({ b with player := some {} },
        acts ++ [BotAction.setVoice voiceChannel], false)

/-- `DiscordWorker._process_events`: record the connectivity flag, drain at
most one event per source queue (the list `evs`), then on a down→up
transition announce availability and — when a pending-resume descriptor is
set — replay the live-stream start sequence via `_reset_live`; on an up→down
transition while playing live, stop playback without disconnecting; finally
run the periodic activity update when `UPDATE_INTERVAL` has elapsed. -/
def DiscordWorker.process_events (b : DiscordWorker) (evs : List InEvent)
    (connectOk : Bool) (disc : DisconnectOutcome) (sr : Bool) :
    DiscordWorker × List BotAction :=
  let was := b.sxmRunning
  let b := evs.foldl DiscordWorker.handle_event b
  let r :=
    if b.sxmRunning ∧ ¬ was then
      match b.pending with
      | some pv =>
        let r := b.reset_live pv.2 pv.1 connectOk disc sr
        (r.1, [BotAction.outputSxmRunning, BotAction.outputResuming] ++ r.2.1,
          r.2.2)
      | none => (b, [BotAction.outputSxmRunning], true)
    else if ¬ b.sxmRunning ∧ was then
      match b.player with
      | some p =>
        if p.is_playing ∧ p.playType = some PlayType.live then
          ({ b with player := some (p.stop false true disc sr) },
            [BotAction.outputConnectionLost, BotAction.stopPlayer false true],
            true)
        else
          (b, [BotAction.outputConnectionLost], true)
      | none => (b, [BotAction.outputConnectionLost], true)
    else
      (b, [], true)
  if r.2.2 ∧ r.1.now > r.1.lastUpdate + UPDATE_INTERVAL then
    ({ r.1 with lastUpdate := r.1.now }, r.2.1 ++ [BotAction.updateActivity])
  else
    (r.1, r.2.1)

end SxmDiscord

namespace SxmDiscord

/-- Claim C6 counterexample: on a single-item carousel (one item, index 0,
`last_interaction = 0`), a left navigation at time 42 is reported unhandled
and moves nothing, yet `last_interaction` is updated to 42 — because
`handle_reaction` calls `touch()` before the edge check.  This refutes the
claim that `lastInteraction` is updated only on a successful move. -/
theorem c6_counterexample :
    ((ReactionCarousel.handle_reaction
        { items := [7], index := 0, created_at := 0, last_interaction := 0 }
        "⬅️" 42).1 = false) ∧
    ((ReactionCarousel.handle_reaction
        { items := [7], index := 0, created_at := 0, last_interaction := 0 }
        "⬅️" 42).2.index = 0) ∧
    ((ReactionCarousel.handle_reaction
        { items := [7], index := 0, created_at := 0, last_interaction := 0 }
        "⬅️" 42).2.last_interaction = 42) ∧
    (42 : Nat) ≠ 0 := by
  refine ⟨rfl, rfl, rfl, by decide⟩

/-- Claim C6 (amended): handling a navigation input moves the index by ±1
clamped to bounds and returns unhandled at either edge, so navigating a
single-item carousel in either direction is a positional no-op; however
`lastInteraction` is updated on every handling attempt — successful or not —
because `touch()` runs before the edge check. -/
theorem c6_theorem (c : ReactionCarousel) (e : String) (now : Nat) :
    ((c.handle_reaction e now).2.last_interaction = now) ∧
    ((c.handle_reaction e now).2.items = c.items) ∧
    ((c.handle_reaction e now).1 = false →
      (c.handle_reaction e now).2.index = c.index) ∧
    ((c.handle_reaction e now).1 = true →
      (0 < c.index ∧ (c.handle_reaction e now).2.index = c.index - 1) ∨
      (c.index < c.items.length - 1 ∧
        (c.handle_reaction e now).2.index = c.index + 1)) ∧
    (c.index < c.items.length →
      (c.handle_reaction e now).2.index < c.items.length) ∧
    (c.items.length = 1 ∧ c.index = 0 →
      (c.handle_reaction e now).1 = false ∧
        (c.handle_reaction e now).2.index = c.index) := by
  unfold ReactionCarousel.handle_reaction ReactionCarousel.touch
  by_cases h1 : e = "⬅️" ∧ c.index > 0
  · obtain ⟨he, hi⟩ := h1
    rw [if_pos ⟨he, hi⟩]
    refine ⟨rfl, rfl, ?_, ?_, ?_, ?_⟩ <;> simp <;> omega
  · rw [if_neg h1]
    by_cases h2 : e = "➡️" ∧ c.index < c.items.length - 1
    · obtain ⟨he, hi⟩ := h2
      rw [if_pos ⟨he, hi⟩]
      refine ⟨rfl, rfl, ?_, ?_, ?_, ?_⟩ <;> simp <;> omega
    · rw [if_neg h2]
      refine ⟨rfl, rfl, ?_, ?_, ?_, ?_⟩ <;> simp

/-- Two-item carousel at index 0, used by the C6 witness. -/
def twoItemCarousel : ReactionCarousel :=
  { items := [4, 5], index := 0, created_at := 0, last_interaction := 1 }

/-- Claim C6 witness: instantiation of the amended theorem on a two-item
carousel where a right navigation from index 0 succeeds and refreshes the
interaction time. -/
theorem c6_witness :
    ((ReactionCarousel.handle_reaction twoItemCarousel "➡️" 9).2.last_interaction = 9) ∧
    ((0 < twoItemCarousel.index ∧
        (ReactionCarousel.handle_reaction twoItemCarousel "➡️" 9).2.index =
          twoItemCarousel.index - 1) ∨
      (twoItemCarousel.index < twoItemCarousel.items.length - 1 ∧
        (ReactionCarousel.handle_reaction twoItemCarousel "➡️" 9).2.index =
          twoItemCarousel.index + 1)) := by
  have h := c6_theorem twoItemCarousel "➡️" 9
  exact ⟨h.1, h.2.2.2.1 rfl⟩

end SxmDiscord

namespace SxmDiscord

/-- Claim C7: a carousel session whose `lastInteraction` is older than the
300-time-unit TTL is never returned by `get` — the lookup lazily evicts it
from the registry — and after a `_cleanup_expired` sweep (run every
`SWEEP_INTERVAL` time-units) no session idle longer than the TTL remains. -/
theorem c7_theorem (m : CarouselManager) (messageId now : Nat) :
    (∀ c, (m.get messageId now).1 = some c →
      ¬ (now - c.last_interaction > CAROUSEL_TIMEOUT)) ∧
    (∀ p, m.carousels.find? (fun q => q.1 = messageId) = some p →
      now - p.2.last_interaction > CAROUSEL_TIMEOUT →
      (m.get messageId now).1 = none ∧
        ((m.get messageId now).2.carousels.find?
          (fun q => q.1 = messageId)) = none) ∧
    (∀ p ∈ (m.cleanup_expired now).carousels,
      ¬ (now - p.2.last_interaction > CAROUSEL_TIMEOUT)) := by
  refine ⟨?_, ?_, ?_⟩
  · intro c hc
    cases hf : m.carousels.find? (fun q => q.1 = messageId) with
    | none => simp [CarouselManager.get, hf] at hc
    | some p =>
      by_cases hex : p.2.is_expired CAROUSEL_TIMEOUT now
      · simp [CarouselManager.get, hf, hex] at hc
      · simp [CarouselManager.get, hf, hex] at hc
        simpa [ReactionCarousel.is_expired, ← hc] using hex
  · intro p hf hexp
    have hex : p.2.is_expired CAROUSEL_TIMEOUT now = true := by
      simpa [ReactionCarousel.is_expired] using hexp
    refine ⟨by simp [CarouselManager.get, hf, hex], ?_⟩
    simp only [CarouselManager.get, hf, hex, if_true]
    apply List.find?_eq_none.mpr
    intro q hq
    have := List.mem_filter.mp hq
    simpa using this.2
  · intro p hp
    have := List.mem_filter.mp hp
    simpa [ReactionCarousel.is_expired] using this.2

/-- Sample carousel session last touched at time 0, used by witnesses. -/
def staleCarousel : ReactionCarousel :=
  { items := [9], index := 0, created_at := 0, last_interaction := 0 }

/-- Sample registry holding `staleCarousel` under message id 1. -/
def staleRegistry : CarouselManager :=
  { carousels := [(1, staleCarousel)] }

/-- Claim C7 witness: a registry holding one session last touched at time 0;
at time 301 the lookup evicts it. -/
theorem c7_witness :
    ((staleRegistry.get 1 301).1 = none) ∧
    (((staleRegistry.get 1 301).2.carousels.find? (fun q => q.1 = 1)) = none) := by
  exact (c7_theorem staleRegistry 1 301).2.1 (1, staleCarousel)
    (by decide) (by decide)

end SxmDiscord

namespace SxmDiscord

/-- The handles released by one `cleanup()` call are exactly the held
source, if any. -/
theorem QueuedItem.cleanup_snd (i : QueuedItem) :
    (QueuedItem.cleanup i).2 = i.source.toList := by
  cases h : i.source <;> simp [QueuedItem.cleanup, h]

/-- Unfolding of `releaseItem` in terms of the held source. -/
theorem releaseItem_spec (s : AudioPlayer) (i : QueuedItem) :
    s.releaseItem i =
      { s with releases := s.releases ++ i.source.toList,
               cleaned := s.cleaned ++ [i] } := by
  simp [AudioPlayer.releaseItem, QueuedItem.cleanup_snd]

/-- Draining a list of items through `releaseItem` appends exactly their
held handles to `releases` and the items themselves to `cleaned`, leaving
every other field unchanged. -/
theorem foldl_releaseItem (l : List QueuedItem) (s : AudioPlayer) :
    l.foldl AudioPlayer.releaseItem s =
      { s with
        releases := s.releases ++ l.flatMap (fun i => i.source.toList),
        cleaned := s.cleaned ++ l } := by
  induction l generalizing s with
  | nil => simp
  | cons i t ih =>
    rw [List.foldl_cons, releaseItem_spec, ih]
    simp

/-- Full characterization of `AudioPlayer.stop`. -/
theorem stop_spec (s : AudioPlayer) (d k : Bool) (disc : DisconnectOutcome)
    (sr : Bool) :
    AudioPlayer.stop s d k disc sr =
      { playType := none
        repeat_ := s.repeat_
        queue := []
        recent := []
        upcoming := []
        current := none
        playlistData := none
        voice := s.voice && !d && !sr
        voicePlaying := !s.voice && s.voicePlaying
        events := s.events ++
          (if d = true ∧ s.voice = true ∧ sr = false ∧
              disc = DisconnectOutcome.ok ∧
              s.playType = some PlayType.live ∧ k = true
           then [OutEvent.killHls] else [])
        releases := s.releases ++ s.queue.flatMap (fun i => i.source.toList) ++
          (s.current.elim [] fun c => c.source.toList)
        cleaned := s.cleaned ++ s.queue ++ s.current.toList
        closedSessions := s.closedSessions ++
          (s.playlistData.elim [] fun pd => [pd.2])
        disconnectCalls := s.disconnectCalls +
          (if s.voice = true ∧ sr = false ∧ d = true then 1 else 0) } := by
  unfold AudioPlayer.stop
  rw [foldl_releaseItem]
  cases hc : s.current <;> cases hpd : s.playlistData <;>
    by_cases hv : s.voice = true <;> cases d <;> cases sr <;> cases disc <;>
    by_cases hl : s.playType = some PlayType.live ∧ k = true <;>
    simp [hv, hc, hpd, hl, releaseItem_spec, List.append_assoc]

end SxmDiscord

namespace SxmDiscord

/-- Claim C5: after `stop(disconnect, kill_hls)` returns, the playback queue
is empty and every drained item was released (its `cleanup()` was called and
its held native handle, if any, was appended to the release trace), the
current item is released and cleared, both history buffers are empty, any
held playlist database session is closed, and the play type is reset; the
voice client is disconnected only when the `disconnect` flag requests it,
and on a disconnect timeout the sink reference is dropped all the same. -/
theorem c5_theorem (s : AudioPlayer) (d k : Bool) (disc : DisconnectOutcome)
    (sr : Bool) :
    ((AudioPlayer.stop s d k disc sr).queue = []) ∧
    ((AudioPlayer.stop s d k disc sr).cleaned =
      s.cleaned ++ s.queue ++ s.current.toList) ∧
    ((AudioPlayer.stop s d k disc sr).releases =
      s.releases ++ s.queue.flatMap (fun i => i.source.toList) ++
        (s.current.elim [] fun c => c.source.toList)) ∧
    ((AudioPlayer.stop s d k disc sr).current = none) ∧
    ((AudioPlayer.stop s d k disc sr).recent = []) ∧
    ((AudioPlayer.stop s d k disc sr).upcoming = []) ∧
    ((AudioPlayer.stop s d k disc sr).playlistData = none) ∧
    (∀ pd, s.playlistData = some pd →
      (AudioPlayer.stop s d k disc sr).closedSessions =
        s.closedSessions ++ [pd.2]) ∧
    ((AudioPlayer.stop s d k disc sr).playType = none) ∧
    (d = false →
      (AudioPlayer.stop s d k disc sr).disconnectCalls = s.disconnectCalls) ∧
    (d = true → s.voice = true → (AudioPlayer.stop s d k disc sr).voice = false) ∧
    (disc = DisconnectOutcome.timeout → d = true → s.voice = true →
      (AudioPlayer.stop s d k disc sr).voice = false) := by
  rw [stop_spec]
  refine ⟨rfl, rfl, rfl, rfl, rfl, rfl, rfl, ?_, rfl, ?_, ?_, ?_⟩
  · intro pd hpd
    simp [hpd]
  · intro hd
    simp [hd]
  · intro hd hv
    simp [hd, hv]
  · intro _ hd hv
    simp [hd, hv]

/-- Sample player in the middle of live playback with a held playlist
session, a sourced current item and a queued item, used by witnesses. -/
def samplePlayer : AudioPlayer :=
  { playType := some PlayType.live
    queue := [{ audio_file := some 4 }]
    current := some { stream_data := some (1, 8), source := some 11 }
    playlistData := some ([2], 3)
    voice := true
    voicePlaying := true }

/-- Claim C5 witness: stopping `samplePlayer` with `disconnect = true` under
a disconnect timeout drains the queue, releases handle 11, closes session 3
and drops the voice reference. -/
theorem c5_witness :
    ((AudioPlayer.stop samplePlayer true true DisconnectOutcome.timeout
        false).queue = []) ∧
    ((AudioPlayer.stop samplePlayer true true DisconnectOutcome.timeout
        false).releases = [11]) ∧
    ((AudioPlayer.stop samplePlayer true true DisconnectOutcome.timeout
        false).closedSessions = [3]) ∧
    ((AudioPlayer.stop samplePlayer true true DisconnectOutcome.timeout
        false).voice = false) := by
  have h := c5_theorem samplePlayer true true DisconnectOutcome.timeout false
  refine ⟨h.1, ?_, ?_, h.2.2.2.2.2.2.2.2.2.2.2 rfl rfl rfl⟩
  · rw [h.2.2.1]
    rfl
  · rw [h.2.2.2.2.2.2.2.1 ([2], 3) rfl]
    rfl

/-- Claim C10: `stop` called with `disconnect = false` never emits a
`KILL_HLS_STREAM` message regardless of the `kill_hls` flag; a kill message
is emitted only on the disconnect branch while the play type is `LIVE` with
`kill_hls` set; and `stop` resets the play type to `None` on every path. -/
theorem c10_theorem (s : AudioPlayer) (d k : Bool) (disc : DisconnectOutcome)
    (sr : Bool) :
    (d = false → (AudioPlayer.stop s d k disc sr).events = s.events) ∧
    ((AudioPlayer.stop s d k disc sr).events ≠ s.events →
      d = true ∧ s.playType = some PlayType.live ∧ k = true) ∧
    ((AudioPlayer.stop s d k disc sr).playType = none) := by
  rw [stop_spec]
  by_cases hcond : d = true ∧ s.voice = true ∧ sr = false ∧
      disc = DisconnectOutcome.ok ∧ s.playType = some PlayType.live ∧ k = true
  · refine ⟨?_, ?_, rfl⟩
    · intro hd
      rw [hd] at hcond
      simp at hcond
    · intro _
      exact ⟨hcond.1, hcond.2.2.2.2.1, hcond.2.2.2.2.2⟩
  · refine ⟨?_, ?_, rfl⟩
    · intro _
      simp [hcond]
    · intro hne
      exact absurd (by simp [hcond]) hne

/-- Claim C10 witness: stopping `samplePlayer` (playing live) with
`disconnect = false` and `kill_hls = true` emits no kill message and still
resets the play type. -/
theorem c10_witness :
    ((AudioPlayer.stop samplePlayer false true DisconnectOutcome.ok
        false).events = samplePlayer.events) ∧
    ((AudioPlayer.stop samplePlayer false true DisconnectOutcome.ok
        false).playType = none) := by
  have h := c10_theorem samplePlayer false true DisconnectOutcome.ok false
  exact ⟨h.1 rfl, h.2.2⟩

end SxmDiscord

namespace SxmDiscord

/-- `_add` never changes the play type. -/
theorem add_aux_playType (s : AudioPlayer) (fi : Option Nat)
    (sd : Option (Nat × Option Nat)) :
    (s.add_aux fi sd).playType = s.playType := by
  unfold AudioPlayer.add_aux AudioPlayer.enqueueItem AudioPlayer.releaseItem
  by_cases hv : s.voice = false
  · simp [hv]
  · rcases sd with - | ⟨ch, - | url⟩ <;> rcases fi with - | f <;>
      simp [hv] <;> split <;> rfl

/-- One public enqueue call of the playback interface
(`add_file` / `add_live_stream` / `add_playlist`). -/
inductive PlayerCall where
  | addFile (f : Nat)
  | addLiveStream (ch : Nat) (url : Option Nat)
  | addPlaylist (repo : List Nat) (sessionId : Nat)
deriving DecidableEq, Repr

/-- Dispatch one public call on the player. -/
def execCall (choice : List Nat → Option Nat) (s : AudioPlayer) :
    PlayerCall → Bool × AudioPlayer
  | PlayerCall.addFile f => s.add_file f
  | PlayerCall.addLiveStream ch url => s.add_live_stream ch url
  | PlayerCall.addPlaylist repo sid => AudioPlayer.add_playlist choice s repo sid

/-- Run a sequence of public calls. -/
def execCalls (choice : List Nat → Option Nat) (s : AudioPlayer) :
    List PlayerCall → AudioPlayer
  | [] => s
  | c :: cs => execCalls choice (execCall choice s c).2 cs

/-- A call attempts a conflicting play type when it would need a play type
the player cannot grant while another is active: a file while `LIVE` is
active, or a live stream / playlist while any play type is active. -/
def conflicting (s : AudioPlayer) : PlayerCall → Prop
  | PlayerCall.addFile _ => s.playType = some PlayType.live
  | PlayerCall.addLiveStream _ _ => s.playType ≠ none
  | PlayerCall.addPlaylist _ _ => s.playType ≠ none

/-- A conflicting call returns failure and leaves the entire player state —
in particular the queue — unchanged. -/
theorem conflicting_rejected (choice : List Nat → Option Nat)
    (s : AudioPlayer) (c : PlayerCall) (h : conflicting s c) :
    execCall choice s c = (false, s) := by
  cases c with
  | addFile f =>
    simp only [conflicting] at h
    simp [execCall, AudioPlayer.add_file, h]
  | addLiveStream ch url =>
    simp only [conflicting] at h
    simp [execCall, AudioPlayer.add_live_stream, h]
  | addPlaylist repo sid =>
    simp only [conflicting] at h
    simp [execCall, AudioPlayer.add_playlist, h]

/-- No public call displaces an active play type. -/
theorem execCall_playType_preserved (choice : List Nat → Option Nat)
    (s : AudioPlayer) (c : PlayerCall) (h : s.playType ≠ none) :
    (execCall choice s c).2.playType = s.playType := by
  cases c with
  | addFile f =>
    by_cases hl : s.playType = some PlayType.live
    · simp [execCall, AudioPlayer.add_file, hl]
    · simp [execCall, AudioPlayer.add_file, hl, h, add_aux_playType]
  | addLiveStream ch url =>
    simp [execCall, AudioPlayer.add_live_stream, h]
  | addPlaylist repo sid =>
    simp [execCall, AudioPlayer.add_playlist, h]

/-- Claim C2: for every sequence of `addFile`/`addLiveStream`/`addPlaylist`
calls, at most one play type is active at any time — an active play type is
never displaced by a later call — and any call attempting a conflicting play
type returns failure and enqueues nothing (the state is unchanged). -/
theorem c2_theorem (choice : List Nat → Option Nat) (s0 : AudioPlayer)
    (cs : List PlayerCall) (c : PlayerCall) :
    (conflicting (execCalls choice s0 cs) c →
      execCall choice (execCalls choice s0 cs) c =
        (false, execCalls choice s0 cs)) ∧
    ((execCalls choice s0 cs).playType ≠ none →
      (execCall choice (execCalls choice s0 cs) c).2.playType =
        (execCalls choice s0 cs).playType) := by
  exact ⟨conflicting_rejected choice (execCalls choice s0 cs) c,
    execCall_playType_preserved choice (execCalls choice s0 cs) c⟩

/-- Claim C2 witness: after an `addLiveStream` call activates `LIVE`, a
conflicting `addFile` call is rejected without touching the state. -/
theorem c2_witness :
    execCall (fun _ => none)
        (execCalls (fun _ => none) { voice := true }
          [PlayerCall.addLiveStream 2 none])
        (PlayerCall.addFile 9) =
      (false,
        execCalls (fun _ => none) { voice := true }
          [PlayerCall.addLiveStream 2 none]) := by
  exact (c2_theorem (fun _ => none) { voice := true }
      [PlayerCall.addLiveStream 2 none] (PlayerCall.addFile 9)).1
    (by unfold conflicting; decide)

end SxmDiscord

namespace SxmDiscord

/-- Claim C3 counterexample: with no voice client set (and no play type
active), `add_file 5` returns `True`, yet nothing is appended to the
upcoming buffer and nothing is enqueued — `_add` discards the request — so
the claim that a non-rejected `addFile` always appends and enqueues is
false. -/
theorem c3_counterexample :
    ((({ voice := false } : AudioPlayer).add_file 5).1 = true) ∧
    ((({ voice := false } : AudioPlayer).add_file 5).2.upcoming = []) ∧
    ((({ voice := false } : AudioPlayer).add_file 5).2.queue = []) := by
  refine ⟨rfl, rfl, rfl⟩

/-- Claim C3 (amended): `addFile(media)` returns `false` exactly when the
play type is `LIVE`; otherwise it sets the play type to `FILE` if currently
unset and — provided a voice client is set — appends the media reference to
the upcoming buffer and enqueues a corresponding `QueuedItem`, releasing the
item (with no native handle ever created) instead of enqueueing it when the
bounded enqueue timeout expires with the queue still full; when no voice
client is set the request is discarded (no append, no enqueue) although the
call still returns `true`. -/
theorem c3_theorem (s : AudioPlayer) (f : Nat) :
    ((s.add_file f).1 = false ↔ s.playType = some PlayType.live) ∧
    (s.playType ≠ some PlayType.live →
      ((s.add_file f).2.playType =
        if s.playType = none then some PlayType.file else s.playType) ∧
      (s.voice = true →
        ((s.add_file f).2.upcoming =
          dequeAppend MAX_UPCOMING_ITEMS s.upcoming f) ∧
        (s.queue.length < PLAYER_QUEUE_MAXSIZE →
          (s.add_file f).2.queue = s.queue ++ [archivedQueuedItem f] ∧
          (s.add_file f).2.cleaned = s.cleaned) ∧
        (¬ s.queue.length < PLAYER_QUEUE_MAXSIZE →
          (s.add_file f).2.queue = s.queue ∧
          (s.add_file f).2.cleaned = s.cleaned ++ [archivedQueuedItem f] ∧
          (s.add_file f).2.releases = s.releases)) ∧
      (s.voice = false →
        (s.add_file f).2.queue = s.queue ∧
        (s.add_file f).2.upcoming = s.upcoming ∧
        (s.add_file f).2.cleaned = s.cleaned)) := by
  by_cases hl : s.playType = some PlayType.live
  · refine ⟨by simp [AudioPlayer.add_file, hl], fun h => absurd hl h⟩
  · refine ⟨by simp [AudioPlayer.add_file, hl], fun _ => ?_⟩
    refine ⟨?_, ?_, ?_⟩
    · by_cases hn : s.playType = none <;>
        simp [AudioPlayer.add_file, hl, hn, add_aux_playType]
    · intro hv
      by_cases hn : s.playType = none <;>
        by_cases hq : s.queue.length < PLAYER_QUEUE_MAXSIZE <;>
        simp [AudioPlayer.add_file, hl, hn, hq, AudioPlayer.add_aux, hv,
          AudioPlayer.enqueueItem, releaseItem_spec, archivedQueuedItem]
    · intro hv
      by_cases hn : s.playType = none <;>
        simp [AudioPlayer.add_file, hl, hn, AudioPlayer.add_aux, hv]

/-- Claim C3 witness: with a voice client set and an idle player, `add_file`
appends to the upcoming buffer and enqueues an `ArchivedQueuedItem`. -/
theorem c3_witness :
    ((({ voice := true } : AudioPlayer).add_file 5).2.upcoming = [5]) ∧
    ((({ voice := true } : AudioPlayer).add_file 5).2.queue =
      [archivedQueuedItem 5]) ∧
    ((({ voice := true } : AudioPlayer).add_file 5).2.playType =
      some PlayType.file) := by
  have h := c3_theorem ({ voice := true } : AudioPlayer) 5
  have h2 := h.2 (by decide)
  refine ⟨(h2.2.1 rfl).1, ((h2.2.1 rfl).2.1 (by decide)).1, ?_⟩
  rw [h2.1]
  rfl

end SxmDiscord

namespace SxmDiscord

/-- Idle player with a bound voice client, about to request a live stream. -/
def liveRequestPlayer : AudioPlayer := { voice := true }

/-- Worker state right after the initial `add_live_stream(channel)` call of
the live-stream scenario: SXM is up, channel 7 is in the catalog, and the
player has `play_type = LIVE` with one `TRIGGER_HLS_STREAM` signalled. -/
def c4Worker : DiscordWorker :=
  { sxmRunning := true
    channels := [7]
    player := some (liveRequestPlayer.add_live_stream 7 none).2 }

/-- Claim C4: `add_live_stream(channel)` with no locator and no active play
type succeeds, enqueues nothing, and signals exactly one stream-start
request — but when the matching `HLS_STREAM_STARTED` event later supplies
the locator, `_handle_event`'s `add_live_stream(channel, url)` call is
rejected by the `play_type is not None` guard (the first call already set
`LIVE`), so the worker state is unchanged and no `QueuedItem` ever appears
in the queue: playback never starts on the stream-ready path. -/
theorem c4_theorem :
    ((liveRequestPlayer.add_live_stream 7 none).1 = true) ∧
    ((liveRequestPlayer.add_live_stream 7 none).2.queue = []) ∧
    ((liveRequestPlayer.add_live_stream 7 none).2.events =
      [OutEvent.triggerHls 7 "udp"]) ∧
    ((liveRequestPlayer.add_live_stream 7 none).2.playType =
      some PlayType.live) ∧
    (c4Worker.handle_event (InEvent.hlsStreamStarted 7 99) = c4Worker) ∧
    ((c4Worker.handle_event (InEvent.hlsStreamStarted 7 99)).player.elim []
      AudioPlayer.queue = []) := by
  refine ⟨rfl, rfl, rfl, rfl, rfl, rfl⟩

/-- `_handle_event` never touches the pending-resume descriptor, the clock
readings, or whether a player exists. -/
theorem handle_event_frame (b : DiscordWorker) (e : InEvent) :
    (b.handle_event e).pending = b.pending ∧
    (b.handle_event e).now = b.now ∧
    (b.handle_event e).lastUpdate = b.lastUpdate ∧
    (b.handle_event e).player.isSome = b.player.isSome := by
  cases e with
  | sxmStatus v => exact ⟨rfl, rfl, rfl, rfl⟩
  | hlsStreamStarted ch url =>
    by_cases hc : ch ∈ b.channels
    · cases hp : b.player <;> simp [DiscordWorker.handle_event, hc, hp]
    · simp [DiscordWorker.handle_event, hc]
  | updateChannels chs => exact ⟨rfl, rfl, rfl, rfl⟩
  | updateLive => exact ⟨rfl, rfl, rfl, rfl⟩

/-- Folding `_handle_event` over an event batch preserves the same frame. -/
theorem foldl_handle_event_frame (evs : List InEvent) (b : DiscordWorker) :
    (evs.foldl DiscordWorker.handle_event b).pending = b.pending ∧
    (evs.foldl DiscordWorker.handle_event b).now = b.now ∧
    (evs.foldl DiscordWorker.handle_event b).lastUpdate = b.lastUpdate ∧
    (evs.foldl DiscordWorker.handle_event b).player.isSome =
      b.player.isSome := by
  induction evs generalizing b with
  | nil => exact ⟨rfl, rfl, rfl, rfl⟩
  | cons e t ih =>
    have h1 := handle_event_frame b e
    have h2 := ih (b.handle_event e)
    rw [List.foldl_cons]
    exact ⟨h2.1.trans h1.1, h2.2.1.trans h1.2.1,
      h2.2.2.1.trans h1.2.2.1, h2.2.2.2.trans h1.2.2.2⟩

end SxmDiscord

namespace SxmDiscord

/-- Worker that was playing live when SXM connectivity dropped: the flag is
down and a pending-resume descriptor (channel 7, voice channel 3) is set. -/
def c8Worker : DiscordWorker :=
  { sxmRunning := false
    pending := some (7, 3)
    player := some {} }

/-- The action trace of one reconciler tick in which connectivity flips back
up with the pending-resume descriptor of `c8Worker` set. -/
def c8Trace : List BotAction :=
  (c8Worker.process_events [InEvent.sxmStatus true] true
    DisconnectOutcome.ok false).2

/-- Claim C8 counterexample: in the down→up resume tick, no
stop-without-disconnect occurs at all — the single stop performed by
`_reset_live` is `stop(kill_hls=False)` with `disconnect` left at its
default `True`, so the sink is disconnected and only the upstream kill is
suppressed.  This refutes the claim that exactly one stop-without-disconnect
occurs. -/
theorem c8_counterexample :
    (c8Trace.count (BotAction.stopPlayer false true) = 0) ∧
    (c8Trace.count (BotAction.stopPlayer false false) = 0) ∧
    (c8Trace.count (BotAction.stopPlayer true false) = 1) := by
  refine ⟨rfl, rfl, rfl⟩

/-- Claim C8 (amended): when connectivity flips down→up with a
pending-resume descriptor set (and a player present), exactly one stop with
the sink disconnected but the upstream kept (`disconnect=True`,
`kill_hls=False`), one player cleanup-and-recreation, one fixed settle
delay, one sink rebind, and one re-request of the same pending channel
occur, in that order (followed only by the periodic activity update when it
is due), provided the sink rebind succeeds. -/
theorem c8_theorem (b : DiscordWorker) (evs : List InEvent) (ch vc : Nat)
    (disc : DisconnectOutcome) (sr : Bool)
    (h0 : b.sxmRunning = false)
    (h1 : (evs.foldl DiscordWorker.handle_event b).sxmRunning = true)
    (h2 : b.pending = some (ch, vc))
    (h3 : b.player.isSome = true) :
    (b.process_events evs true disc sr).2 =
      [BotAction.outputSxmRunning, BotAction.outputResuming,
        BotAction.stopPlayer true false, BotAction.cleanupPlayer,
        BotAction.createPlayer, BotAction.startPlayer,
        BotAction.settleDelay 5, BotAction.setVoice vc,
        BotAction.requestChannel ch] ++
      (if b.now > b.lastUpdate + UPDATE_INTERVAL
       then [BotAction.updateActivity] else []) := by
  have hframe := foldl_handle_event_frame evs b
  have hpend := hframe.1.trans h2
  have hnow := hframe.2.1
  have hlast := hframe.2.2.1
  have hps := hframe.2.2.2.trans h3
  unfold DiscordWorker.process_events
  cases hp : (evs.foldl DiscordWorker.handle_event b).player with
  | none => rw [hp] at hps; cases hps
  | some p =>
    simp only [h0, h1, hpend, hp, DiscordWorker.reset_live]
    by_cases hu : b.now > b.lastUpdate + UPDATE_INTERVAL <;>
      simp [hu, hnow, hlast]

/-- Claim C8 witness: the resume tick of `c8Worker` (clock at 0, update not
due) produces exactly the amended action sequence. -/
theorem c8_witness :
    (c8Worker.process_events [InEvent.sxmStatus true] true
        DisconnectOutcome.ok false).2 =
      [BotAction.outputSxmRunning, BotAction.outputResuming,
        BotAction.stopPlayer true false, BotAction.cleanupPlayer,
        BotAction.createPlayer, BotAction.startPlayer,
        BotAction.settleDelay 5, BotAction.setVoice 3,
        BotAction.requestChannel 7] := by
  have h := c8_theorem c8Worker [InEvent.sxmStatus true] 7 3
    DisconnectOutcome.ok false rfl rfl rfl rfl
  simpa using h

end SxmDiscord

namespace SxmDiscord

/-- Claim C9: the consumption loop never terminates except via `cleanup()` —
on a schedule where the shutdown flag is never observed and no cancellation
is delivered, the loop is still running when the schedule runs out; an
iteration that raises is caught and followed by a fixed 1-second backoff
after which the loop continues; an observed shutdown flag exits the loop;
and `cleanup()` sets the shutdown flag, wakes the parked loop, and — only
when the task fails to exit within the bounded deadline — force-cancels it,
swallowing the resulting cancellation. -/
theorem c9_theorem :
    (∀ sched : List (Bool × IterOutcome),
      (∀ p ∈ sched, p.1 = false ∧ p.2 ≠ IterOutcome.cancelled) →
      (audio_player_loop sched).2 = none) ∧
    (∀ rest : List (Bool × IterOutcome),
      audio_player_loop ((false, IterOutcome.error) :: rest) =
        (LoopEvent.iteration :: LoopEvent.backoff 1 ::
          (audio_player_loop rest).1, (audio_player_loop rest).2)) ∧
    (∀ (o : IterOutcome) (rest : List (Bool × IterOutcome)),
      audio_player_loop ((true, o) :: rest) = ([], some LoopExit.shutdown)) ∧
    (∀ taskRunning exitsWithinTimeout : Bool,
      ((cleanupModel taskRunning exitsWithinTimeout).shutdownSet = true) ∧
      ((cleanupModel taskRunning exitsWithinTimeout).wakeSignalled = true) ∧
      ((cleanupModel taskRunning exitsWithinTimeout).forceCancelled = true →
        taskRunning = true ∧ exitsWithinTimeout = false ∧
        (cleanupModel taskRunning exitsWithinTimeout).cancelErrorSwallowed =
          true) ∧
      (exitsWithinTimeout = true →
        (cleanupModel taskRunning exitsWithinTimeout).forceCancelled =
          false)) := by
  refine ⟨?_, fun rest => rfl, fun o rest => rfl, ?_⟩
  · intro sched hs
    induction sched with
    | nil => rfl
    | cons p rest ih =>
      obtain ⟨hflag, hout⟩ := hs p (List.mem_cons_self p rest)
      have hrest := ih (fun q hq => hs q (List.mem_cons_of_mem p hq))
      obtain ⟨b, o⟩ := p
      cases b with
      | true => cases hflag
      | false =>
        cases o with
        | ok => simpa [audio_player_loop] using hrest
        | error => simpa [audio_player_loop] using hrest
        | cancelled => exact absurd (rfl : IterOutcome.cancelled = IterOutcome.cancelled) hout
  · intro tr ew
    cases tr <;> cases ew <;>
      refine ⟨rfl, rfl, ?_, ?_⟩ <;> intro h <;> simp_all [cleanupModel]

/-- Claim C9 witness: a two-pass schedule with one normal iteration and one
caught error (shutdown never observed, no cancellation) leaves the loop
still running. -/
theorem c9_witness :
    (audio_player_loop
      [(false, IterOutcome.ok), (false, IterOutcome.error)]).2 = none := by
  exact c9_theorem.1 [(false, IterOutcome.ok), (false, IterOutcome.error)]
    (by decide)

end SxmDiscord

namespace SxmDiscord

/-- The enqueue path never releases a native handle: items are enqueued (or
timeout-rejected) before any source is materialized, so their `cleanup()`
finds no handle. -/
theorem add_aux_releases (s : AudioPlayer) (fi : Option Nat)
    (sd : Option (Nat × Option Nat)) :
    (s.add_aux fi sd).releases = s.releases := by
  unfold AudioPlayer.add_aux AudioPlayer.enqueueItem
  by_cases hv : s.voice = false
  · simp [hv]
  · rcases sd with - | ⟨ch, - | url⟩ <;> rcases fi with - | f <;>
      simp [hv, releaseItem_spec, archivedQueuedItem, sxmQueuedItem] <;>
      split <;> simp

/-- `_add` never touches the current slot. -/
theorem add_aux_current (s : AudioPlayer) (fi : Option Nat)
    (sd : Option (Nat × Option Nat)) :
    (s.add_aux fi sd).current = s.current := by
  unfold AudioPlayer.add_aux AudioPlayer.enqueueItem
  by_cases hv : s.voice = false
  · simp [hv]
  · rcases sd with - | ⟨ch, - | url⟩ <;> rcases fi with - | f <;>
      simp [hv, releaseItem_spec] <;> split <;> simp

/-- `add_file` never releases a native handle. -/
theorem add_file_releases (s : AudioPlayer) (f : Nat) :
    (s.add_file f).2.releases = s.releases := by
  unfold AudioPlayer.add_file
  by_cases hl : s.playType = some PlayType.live
  · simp [hl]
  · by_cases hn : s.playType = none <;> simp [hl, hn, add_aux_releases]

/-- `add_file` never touches the current slot. -/
theorem add_file_current (s : AudioPlayer) (f : Nat) :
    (s.add_file f).2.current = s.current := by
  unfold AudioPlayer.add_file
  by_cases hl : s.playType = some PlayType.live
  · simp [hl]
  · by_cases hn : s.playType = none <;> simp [hl, hn, add_aux_current]

/-- The playlist refill never releases a native handle. -/
theorem add_random_releases (choice : List Nat → Option Nat)
    (s : AudioPlayer) :
    (AudioPlayer.add_random_playlist_song choice s).2.releases =
      s.releases := by
  unfold AudioPlayer.add_random_playlist_song
  cases hpd : s.playlistData with
  | none => rfl
  | some pd =>
    by_cases he : pd.1 = []
    · simp [he]
    · cases hch : choice pd.1 <;> simp [he, hch, add_file_releases]

/-- The playlist refill never touches the current slot. -/
theorem add_random_current (choice : List Nat → Option Nat)
    (s : AudioPlayer) :
    (AudioPlayer.add_random_playlist_song choice s).2.current =
      s.current := by
  unfold AudioPlayer.add_random_playlist_song
  cases hpd : s.playlistData with
  | none => rfl
  | some pd =>
    by_cases he : pd.1 = []
    · simp [he]
    · cases hch : choice pd.1 <;> simp [he, hch, add_file_current]

/-- The post-track policy never releases a native handle. -/
theorem handle_track_end_releases (choice : List Nat → Option Nat)
    (s : AudioPlayer) (b : Bool) :
    (AudioPlayer.handle_track_end choice s b).releases = s.releases := by
  unfold AudioPlayer.handle_track_end
  by_cases hb : b = true
  · simp [hb]
  · by_cases hr : s.playType = some PlayType.random ∧ s.queue.length < 5
    · simp [hb, hr, add_random_releases]
    · by_cases hrep : s.repeat_ = true ∧ s.playType = some PlayType.file
      · cases hc : s.current with
        | none => simp [hb, hr, hrep, hc]
        | some c =>
          cases ha : c.audio_file <;>
            simp [hb, hr, hrep, hc, ha, add_aux_releases]
      · simp [hb, hr, hrep]

/-- The post-track policy never touches the current slot. -/
theorem handle_track_end_current (choice : List Nat → Option Nat)
    (s : AudioPlayer) (b : Bool) :
    (AudioPlayer.handle_track_end choice s b).current = s.current := by
  unfold AudioPlayer.handle_track_end
  by_cases hb : b = true
  · simp [hb]
  · by_cases hr : s.playType = some PlayType.random ∧ s.queue.length < 5
    · simp [hb, hr, add_random_current]
    · by_cases hrep : s.repeat_ = true ∧ s.playType = some PlayType.file
      · cases hc : s.current with
        | none => simp [hb, hr, hrep, hc]
        | some c =>
          cases ha : c.audio_file <;>
            simp [hb, hr, hrep, hc, ha, add_aux_current]
      · simp [hb, hr, hrep]

/-- Characterization of `_discard` (also the `finally` block): the current
item's held handle, if any, is released and the slot is cleared. -/
theorem discard_spec (s : AudioPlayer) :
    s.discard =
      { s with
        releases := s.releases ++ (s.current.elim [] fun c => c.source.toList)
        cleaned := s.cleaned ++ s.current.toList
        current := none } := by
  cases hc : s.current <;> simp [AudioPlayer.discard, hc, releaseItem_spec]

end SxmDiscord

namespace SxmDiscord

/-- Shape validation of a dequeued item against the play type, as performed
by `_create_live_source` / `_create_file_source`. -/
def validItem (pt : Option PlayType) (i : QueuedItem) : Bool :=
  if pt = some PlayType.live then
    i.audio_file.isNone && i.stream_data.isSome
  else
    i.stream_data.isNone && i.audio_file.isSome

/-- Source creation fails exactly when the item's shape is invalid for the
current play type. -/
theorem createSource_none_iff (s : AudioPlayer) (item : QueuedItem)
    (hh : Nat) :
    s.createSource item hh = none ↔ validItem s.playType item = false := by
  unfold AudioPlayer.createSource validItem
  by_cases hl : s.playType = some PlayType.live <;>
    cases ha : item.audio_file <;> cases hsd : item.stream_data <;>
    simp [hl, ha, hsd]

/-- On success, source creation only rotates the history buffers and assigns
the fresh handle to the item; every other player field is untouched. -/
theorem createSource_spec (s : AudioPlayer) (item : QueuedItem) (hh : Nat)
    (s2 : AudioPlayer) (i2 : QueuedItem)
    (h : s.createSource item hh = some (s2, i2)) :
    s2.releases = s.releases ∧ s2.queue = s.queue ∧ s2.current = s.current ∧
    s2.playType = s.playType ∧ s2.repeat_ = s.repeat_ ∧
    s2.playlistData = s.playlistData ∧ s2.voice = s.voice ∧
    s2.cleaned = s.cleaned ∧
    i2 = { item with source := some hh } := by
  unfold AudioPlayer.createSource at h
  by_cases hl : s.playType = some PlayType.live <;>
    cases ha : item.audio_file <;> cases hsd : item.stream_data <;>
    simp [hl, ha, hsd] at h
  · obtain ⟨h1, h2⟩ := h
    subst h1
    subst h2
    exact ⟨rfl, rfl, rfl, rfl, rfl, rfl, rfl, rfl, rfl⟩
  · obtain ⟨h1, h2⟩ := h
    subst h1
    subst h2
    exact ⟨rfl, rfl, rfl, rfl, rfl, rfl, rfl, rfl, rfl⟩

end SxmDiscord

namespace SxmDiscord

/-- An intervening external `stop` at the suspension point empties the queue,
releases exactly the queued handles and the current handle, and clears the
current slot. -/
theorem applyStopDuring_spec (s : AudioPlayer) (d k : Bool)
    (dc : DisconnectOutcome) (sr : Bool) :
    ((s.applyStopDuring (some (d, k, dc, sr))).releases =
      s.releases ++ s.queue.flatMap (fun i => i.source.toList) ++
        (s.current.elim [] fun c => c.source.toList)) ∧
    ((s.applyStopDuring (some (d, k, dc, sr))).current = none) ∧
    ((s.applyStopDuring none) = s) := by
  refine ⟨?_, ?_, rfl⟩ <;> simp [AudioPlayer.applyStopDuring, stop_spec]

/-- Equational form: releases appended by an intervening `stop`. -/
theorem applyStopDuring_some_releases (s : AudioPlayer) (d k : Bool)
    (dc : DisconnectOutcome) (sr : Bool) :
    (s.applyStopDuring (some (d, k, dc, sr))).releases =
      s.releases ++ s.queue.flatMap (fun i => i.source.toList) ++
        (s.current.elim [] fun c => c.source.toList) := by
  simp [AudioPlayer.applyStopDuring, stop_spec]

/-- Equational form: an intervening `stop` clears the current slot. -/
theorem applyStopDuring_some_current (s : AudioPlayer) (d k : Bool)
    (dc : DisconnectOutcome) (sr : Bool) :
    (s.applyStopDuring (some (d, k, dc, sr))).current = none := by
  simp [AudioPlayer.applyStopDuring, stop_spec]


/-- Claim C1: a `QueuedItem`'s native audio-source handle, once created, is
released exactly once whichever way the consumption-loop iteration exits
(normal completion, playback error, cancellation, an intervening `stop()` or
forced cleanup at the suspension point, or validation discard), and zero
times on paths where it was never created (including the enqueue-timeout
rejection: the enqueue path releases no native handle at all); releasing a
second time is a safe no-op that leaves the handle slot cleared
(`source = None`). -/
theorem c1_theorem :
    (∀ i : QueuedItem,
      (QueuedItem.cleanup i).1.source = none ∧
      QueuedItem.cleanup (QueuedItem.cleanup i).1 =
        ((QueuedItem.cleanup i).1, [])) ∧
    (∀ (s : AudioPlayer) (fi : Option Nat) (sd : Option (Nat × Option Nat)),
      (s.add_aux fi sd).releases = s.releases) ∧
    (∀ (choice : List Nat → Option Nat) (s : AudioPlayer) (shut : Bool)
        (hh : Nat) (w : WaitOutcome) (item : QueuedItem)
        (rest : List QueuedItem),
      s.queue = item :: rest →
      item.source = none →
      hh ∉ rest.flatMap (fun i => i.source.toList) →
      ((AudioPlayer.iteration choice s shut hh w).releases.count hh =
        s.releases.count hh +
          (if shut = false ∧ s.voice = true ∧ s.playType ≠ none ∧
              validItem s.playType item = true then 1 else 0)) ∧
      ((shut = false ∧ s.voice = true ∧ s.playType ≠ none ∧
          validItem s.playType item = true) →
        (AudioPlayer.iteration choice s shut hh w).current = none)) := by
  refine ⟨?_, add_aux_releases, ?_⟩
  · intro i
    cases hs : i.source <;> simp [QueuedItem.cleanup, hs]
  · intro choice s shut hh w item rest hq hsrc hnot
    have hrest0 : (rest.flatMap fun i => i.source.toList).count hh = 0 :=
      List.count_eq_zero.mpr hnot
    cases shut with
    | true =>
      constructor
      · simp [AudioPlayer.iteration, hq, releaseItem_spec, hsrc]
      · rintro ⟨hfalse, -⟩
        cases hfalse
    | false =>
      simp only [AudioPlayer.iteration, hq]
      rw [if_neg (by decide : ¬ (false = true))]
      by_cases hv : s.voice = true
      · rw [if_neg (not_not_intro hv)]
        by_cases hpt : s.playType = none
        · rw [if_pos hpt]
          constructor
          · simp [discard_spec, hsrc, hpt]
          · rintro ⟨-, -, hne, -⟩
            exact absurd hpt hne
        · rw [if_neg hpt]
          cases hcs : AudioPlayer.createSource
              { s with queue := rest, current := some item } item hh with
          | none =>
            have hvi : validItem s.playType item = false :=
              (createSource_none_iff
                { s with queue := rest, current := some item } item hh).mp hcs
            constructor
            · simp [discard_spec, hsrc, hvi]
            · rintro ⟨-, -, -, hvt⟩
              rw [hvi] at hvt
              cases hvt
          | some pr =>
            obtain ⟨s2, i2⟩ := pr
            have hspec := createSource_spec
              { s with queue := rest, current := some item } item hh s2 i2 hcs
            have hvi : validItem s.playType item = true := by
              cases hvv : validItem s.playType item
              · have hn := (createSource_none_iff
                  { s with queue := rest, current := some item } item hh).mpr hvv
                rw [hcs] at hn
                cases hn
              · rfl
            have hi2 : i2.source = some hh := by
              rw [hspec.2.2.2.2.2.2.2.2]
            have hrel2 : s2.releases = s.releases := hspec.1
            have hq2 : s2.queue = rest := hspec.2.1
            cases w with
            | raisedEarly =>
              constructor
              · simp [discard_spec, hi2, hrel2, List.count_append, hv, hpt,
                  hvi]
              · intro _
                simp [discard_spec]
            | completed sd =>
              cases sd with
              | none =>
                constructor
                · simp [AudioPlayer.applyStopDuring, discard_spec,
                    handle_track_end_releases, handle_track_end_current,
                    hi2, hrel2, List.count_append, hv, hpt, hvi]
                · intro _
                  simp [AudioPlayer.applyStopDuring, discard_spec,
                    handle_track_end_current]
              | some q =>
                obtain ⟨d, k, dc, sr⟩ := q
                constructor
                · simp [applyStopDuring_some_releases,
                    applyStopDuring_some_current, discard_spec,
                    handle_track_end_releases, handle_track_end_current,
                    hi2, hrel2, hq2, List.count_append, hrest0, hv, hpt, hvi]
                · intro _
                  simp [applyStopDuring_some_current, discard_spec,
                    handle_track_end_current]
            | cancelled sd =>
              cases sd with
              | none =>
                constructor
                · simp [AudioPlayer.applyStopDuring, discard_spec,
                    hi2, hrel2, List.count_append, hv, hpt, hvi]
                · intro _
                  simp [AudioPlayer.applyStopDuring, discard_spec]
              | some q =>
                obtain ⟨d, k, dc, sr⟩ := q
                constructor
                · simp [applyStopDuring_some_releases,
                    applyStopDuring_some_current, discard_spec,
                    hi2, hrel2, hq2, List.count_append, hrest0, hv, hpt, hvi]
                · intro _
                  simp [applyStopDuring_some_current, discard_spec]
      · rw [if_pos hv]
        constructor
        · simp [discard_spec, hsrc, hv]
        · rintro ⟨-, hvt, -⟩
          exact absurd hvt hv

end SxmDiscord

namespace SxmDiscord

/-- Player about to play a queued live-stream item, used by the C1
witness. -/
def c1Player : AudioPlayer :=
  { voice := true
    playType := some PlayType.live
    queue := [sxmQueuedItem 1 8] }

/-- Claim C1 witness: a normally completed iteration on `c1Player` releases
the materialized handle 42 exactly once and clears the current slot. -/
theorem c1_witness :
    ((AudioPlayer.iteration (fun _ => none) c1Player false 42
        (WaitOutcome.completed none)).releases.count 42 = 1) ∧
    ((AudioPlayer.iteration (fun _ => none) c1Player false 42
        (WaitOutcome.completed none)).current = none) := by
  have h := c1_theorem.2.2 (fun _ => none) c1Player false 42
    (WaitOutcome.completed none) (sxmQueuedItem 1 8) [] rfl rfl (by decide)
  constructor
  · rw [h.1]
    decide
  · exact h.2 (by decide)

end SxmDiscord
